import Mathlib

/-!
A Lean model of the star-counting tool in src/index.ts
(github-stars-this-year): paginated retrieval of a user's public
repositories, per-repository stargazer window counting with early
termination, bounded-concurrency aggregation, and ranking/reporting.

Conventions of the embedding:
* ISO-8601 timestamps are kept as strings, exactly as the program
  compares them; JavaScript string comparison is code-unit
  lexicographic and is modelled by charListLt below.
* The two while-loops are modelled with an explicit fuel parameter;
  fuel exhaustion (the loop would still be running) is Option.none.
* Each loop additionally returns the number of page fetches it issued,
  so that the pagination claims can speak about fetch counts; the
  functions of the source are the first projections.
* Fallible paths (thrown Error) are Except.error carrying the message
  string built by the source.
-/

namespace GitHubStars

/-- JavaScript relational comparison of strings is lexicographic on
code units; this is that comparison on the underlying character lists. -/
def charListLt : List Char → List Char → Bool
  | _, [] => false
  | [], _ :: _ => true
  | a :: as, b :: bs =>
    if a < b then true
    else if b < a then false
    else charListLt as bs

/-- JavaScript strict comparison a < b on strings. -/
def strLt (a b : String) : Bool := charListLt a.data b.data

/-- JavaScript comparison a >= b on strings: on the total code-unit
order this is the negation of a < b. -/
def strGe (a b : String) : Bool := !(strLt a b)

/-- A repository object from the repository-list endpoint
(src/index.ts, interface Repository). The source field named with the
reserved word for visibility is rendered here as isPrivate. -/
structure Repository where
  name : String
  full_name : String
  stargazers_count : Nat
  html_url : String
  isPrivate : Bool
deriving DecidableEq

/-- A stargazer event from the stargazers endpoint (src/index.ts,
interface StargazerEvent); the nested user.login is flattened. -/
structure StargazerEvent where
  starred_at : String
  login : String
deriving DecidableEq

/-- The per-repository aggregate (src/index.ts, interface
RepoStarResult). -/
structure RepoStarResult where
  name : String
  fullName : String
  totalStars : Nat
  starsThisYear : Nat
  url : String
deriving DecidableEq

/-- An HTTP response as far as the program observes it: status, status
text, and the decoded JSON body (a list of items). -/
structure HttpResponse (α : Type) where
  status : Nat
  statusText : String
  data : List α
deriving DecidableEq

deriving instance DecidableEq for Except

/-- The ok flag of a fetch Response: status in the 2xx range. -/
def HttpResponse.ok {α : Type} (r : HttpResponse α) : Bool :=
  decide (200 ≤ r.status) && decide (r.status ≤ 299)

/-- Page size used by both loops (src/index.ts, const perPage = 100). -/
def perPage : Nat := 100

/-- new Date(currentYear, 0, 1).toISOString() for a process running in
UTC: the first instant of the year as an ISO-8601 string. -/
def isoYearStart (year : Nat) : String :=
  toString year ++ "-01-01T00:00:00.000Z"

/-- The pagination loop of getPublicRepos (src/index.ts lines 45-68).
The remote endpoint is a function from the page index to the response.
Returns the accumulated repository list and the number of page fetches
issued; none means the fuel ran out before the loop stopped. -/
def getPublicReposLoop (api : Nat → HttpResponse Repository) :
    Nat → Nat → List Repository → Nat → Option (Except String (List Repository × Nat))
  | 0, _, _, _ => none
  | fuel + 1, page, repos, fetches =>
    let response := api page
    if !response.ok then
      some (.error ("Failed to fetch repositories: " ++ response.statusText))
    else
      let data := response.data
      if data.length = 0 then some (.ok (repos, fetches + 1))
      else
        let repos := repos ++ data.filter (fun repo => !repo.isPrivate)
        if data.length < perPage then some (.ok (repos, fetches + 1))
        else getPublicReposLoop api fuel (page + 1) repos (fetches + 1)

/-- getPublicRepos (src/index.ts lines 45-68): run the loop from page 1
with an empty accumulator and return the repository list. -/
def getPublicRepos (api : Nat → HttpResponse Repository) (fuel : Nat) :
    Option (Except String (List Repository)) :=
  (getPublicReposLoop api fuel 1 [] 0).map (Except.map Prod.fst)

/-- The per-page counting loop of getStarsThisYear (src/index.ts lines
97-101): for each event of the page, increment when
star.starred_at >= startOfYear. -/
def countStars (startOfYear : String) (data : List StargazerEvent) (starsThisYear : Nat) : Nat :=
  data.foldl (fun n star => if strGe star.starred_at startOfYear then n + 1 else n) starsThisYear

/-- The pagination loop of getStarsThisYear (src/index.ts lines 77-109).
The remote stargazers endpoint for one repository is a function from
the page index to the response. Returns the count and the number of
page fetches issued; none means the fuel ran out. On a 404 the source
does return 0, discarding any count accumulated on earlier pages. -/
def getStarsThisYearLoop (api : Nat → HttpResponse StargazerEvent)
    (owner repo startOfYear : String) :
    Nat → Nat → Nat → Nat → Option (Except String (Nat × Nat))
  | 0, _, _, _ => none
  | fuel + 1, page, starsThisYear, fetches =>
    let response := api page
    if !response.ok then
      if response.status = 404 then some (.ok (0, fetches + 1))
      else
        some (.error ("Failed to fetch stargazers for " ++ owner ++ "/" ++ repo ++ ": "
          ++ response.statusText))
    else
      let data := response.data
      if data.length = 0 then some (.ok (starsThisYear, fetches + 1))
      else
        let starsThisYear := countStars startOfYear data starsThisYear
        match data.getLast? with
        | some oldestStar =>
          if strLt oldestStar.starred_at startOfYear then
            some (.ok (starsThisYear, fetches + 1))
          else if data.length < perPage then some (.ok (starsThisYear, fetches + 1))
          else getStarsThisYearLoop api owner repo startOfYear fuel (page + 1) starsThisYear
            (fetches + 1)
        | none =>
          if data.length < perPage then some (.ok (starsThisYear, fetches + 1))
          else getStarsThisYearLoop api owner repo startOfYear fuel (page + 1) starsThisYear
            (fetches + 1)

/-- getStarsThisYear (src/index.ts lines 70-112): the window boundary
is derived from the clock read at the start of this invocation
(new Date().getFullYear(), modelled by the currentYear argument), and
the loop runs from page 1 with count 0. -/
def getStarsThisYear (api : Nat → HttpResponse StargazerEvent) (owner repo : String)
    (currentYear : Nat) (fuel : Nat) : Option (Except String Nat) :=
  (getStarsThisYearLoop api owner repo (isoYearStart currentYear) fuel 1 0 0).map
    (Except.map Prod.fst)

/-- The pre-fetch eligibility filter of the main block (src/index.ts
line 133): keep repositories with at least one lifetime star. -/
def eligibleRepos (repos : List Repository) : List Repository :=
  repos.filter (fun repo => decide (0 < repo.stargazers_count))

/-- One aggregator task (src/index.ts lines 139-153): fetch the
repository's in-window count and build its RepoStarResult. The task's
clock reading is the year argument. -/
def runTask (api : String → Nat → HttpResponse StargazerEvent) (username : String)
    (year : Nat) (fuel : Nat) (repo : Repository) : Option (Except String RepoStarResult) :=
  (getStarsThisYear (api repo.name) username repo.name year fuel).map (Except.map (fun n =>
    { name := repo.name
      fullName := repo.full_name
      totalStars := repo.stargazers_count
      starsThisYear := n
      url := repo.html_url }))

/-- Promise.all over the limited tasks (src/index.ts line 155): results
are collected positionally, i.e. in repository-list order; the first
task that fails rejects the whole aggregation and no result list is
produced. yearAt i is the clock reading (year) observed when task i
starts. -/
def aggregateLoop (api : String → Nat → HttpResponse StargazerEvent) (username : String)
    (yearAt : Nat → Nat) (fuel : Nat) :
    List Repository → Nat → Option (Except String (List RepoStarResult))
  | [], _ => some (.ok [])
  | repo :: rest, i =>
    match runTask api username (yearAt i) fuel repo with
    | none => none
    | some (.error e) => some (.error e)
    | some (.ok res) =>
      match aggregateLoop api username yearAt fuel rest (i + 1) with
      | none => none
      | some (.error e) => some (.error e)
      | some (.ok results) => some (.ok (res :: results))

/-- The aggregation of the main block: the eligibility filter followed
by the fan-out over the eligible repositories (src/index.ts lines
133-155). -/
def aggregateResults (api : String → Nat → HttpResponse StargazerEvent) (username : String)
    (yearAt : Nat → Nat) (fuel : Nat) (repos : List Repository) :
    Option (Except String (List RepoStarResult)) :=
  aggregateLoop api username yearAt fuel (eligibleRepos repos) 0

/-- The sort of the main block (src/index.ts line 158):
results.sort((a, b) => b.starsThisYear - a.starsThisYear), a stable
descending sort by in-window count. A stable sorted permutation is
unique, so the stable insertion sort is the model of the engine's
Array.prototype.sort. -/
def sortResults (results : List RepoStarResult) : List RepoStarResult :=
  List.insertionSort (fun a b => b.starsThisYear ≤ a.starsThisYear) results

/-- Math.max over a list of naturals (the source applies it to
nonempty lists only, where the 0 seed is neutral). -/
def listMax (l : List Nat) : Nat := l.foldl max 0

/-- The derived summary of the main block (src/index.ts lines 158-177):
sorted results, the two totals, the repositories with new stars, the
displayed top 10, and the column widths computed from the displayed
subset. -/
structure Summary where
  sorted : List RepoStarResult
  totalStarsThisYear : Nat
  totalStarsAllTime : Nat
  reposWithNewStars : List RepoStarResult
  top10 : List RepoStarResult
  maxNameLen : Nat
  maxStarsLen : Nat
  maxTotalLen : Nat
deriving DecidableEq

/-- Build the Summary exactly as the main block does (src/index.ts
lines 158-177). -/
def makeSummary (results : List RepoStarResult) : Summary :=
  let sorted := sortResults results
  let totalStarsThisYear := sorted.foldl (fun sum r => sum + r.starsThisYear) 0
  let totalStarsAllTime := sorted.foldl (fun sum r => sum + r.totalStars) 0
  let reposWithNewStars := sorted.filter (fun r => decide (0 < r.starsThisYear))
  let top10 := reposWithNewStars.take 10
  { sorted := sorted
    totalStarsThisYear := totalStarsThisYear
    totalStarsAllTime := totalStarsAllTime
    reposWithNewStars := reposWithNewStars
    top10 := top10
    maxNameLen := listMax (top10.map (fun r => r.name.length))
    maxStarsLen := listMax (top10.map (fun r => (toString r.starsThisYear).length))
    maxTotalLen := listMax (top10.map (fun r => (toString r.totalStars).length)) }

/-- The completion trace of the concurrent tasks: the tasks' outputs
tagged by task index, listed in the order the tasks happen to finish. -/
def completionList {α : Type} (order : List Nat) (f : Nat → α) : List (Nat × α) :=
  order.map (fun i => (i, f i))

/-- Promise.all assembles task outputs positionally: slot i of the
result receives the output tagged i, independent of completion order. -/
def assembleAll {α : Type} (n : Nat) (entries : List (Nat × α)) : List (Option α) :=
  (List.range n).map (fun i => entries.lookup i)

/-- A repository value used only to give list indexing a default. -/
def defaultRepo : Repository :=
  { name := "", full_name := "", stargazers_count := 0, html_url := "", isPrivate := false }

/-- The concurrency ceiling (src/index.ts line 137, pLimit(5)). -/
def concurrencyLimit : Nat := 5

/-- Modelled from the spec: the p-limit concurrency limiter used at
src/index.ts line 137 is a library dependency whose code is not among
the sources; following the spec, it is a semaphore-gated task queue
keeping at most concurrencyLimit tasks in flight and starting the next
queued task when one completes. A state is the queue of not-yet-started
task indices and the indices currently in flight. -/
structure LimiterState where
  queued : List Nat
  running : List Nat
deriving DecidableEq

/-- Modelled from the spec: start queued tasks while a slot is free. -/
def startQueued : List Nat → List Nat → List Nat × List Nat
  | [], running => ([], running)
  | t :: rest, running =>
    if running.length < concurrencyLimit then startQueued rest (running ++ [t])
    else (t :: rest, running)

/-- Modelled from the spec: the limiter's initial state for n submitted
tasks, after eagerly starting as many as the ceiling allows. -/
def initLimiter (n : Nat) : LimiterState :=
  { queued := (startQueued (List.range n) []).1
    running := (startQueued (List.range n) []).2 }

/-- Modelled from the spec: a running task completes and the freed slot
is refilled from the queue. -/
def stepLimiter (s : LimiterState) (done : Nat) : LimiterState :=
  { queued := (startQueued s.queued (s.running.erase done)).1
    running := (startQueued s.queued (s.running.erase done)).2 }

/-- Modelled from the spec: the limiter state after an arbitrary finite
sequence of task completions. -/
def runSchedule (n : Nat) (choices : List Nat) : LimiterState :=
  choices.foldl stepLimiter (initLimiter n)

/-! Concrete remote data sets used to instantiate the theorems below. -/

/-- A stargazer event at the given instant. -/
def evAt (t : String) : StargazerEvent := { starred_at := t, login := "alice" }

/-- A 200 response carrying the given stargazer events. -/
def okStarPage (l : List StargazerEvent) : HttpResponse StargazerEvent :=
  { status := 200, statusText := "OK", data := l }

/-- A 200 response carrying the given repositories. -/
def okRepoPage (l : List Repository) : HttpResponse Repository :=
  { status := 200, statusText := "OK", data := l }

/-- A 404 response with an empty body. -/
def notFoundStarPage : HttpResponse StargazerEvent :=
  { status := 404, statusText := "Not Found", data := [] }

/-- A 500 response with an empty body. -/
def errorStarPage : HttpResponse StargazerEvent :=
  { status := 500, statusText := "Internal Server Error", data := [] }

/-- An event inside the 2025 window. -/
def evIn : StargazerEvent := evAt "2025-06-15T12:00:00.000Z"

/-- An event before the 2025 window. -/
def evOut : StargazerEvent := evAt "2024-11-03T08:00:00.000Z"

/-- An event exactly at the 2025 window boundary. -/
def evBoundary : StargazerEvent := evAt "2025-01-01T00:00:00.000Z"

/-- A public repository with the given name and lifetime star count. -/
def repoStar (n : String) (stars : Nat) : Repository :=
  { name := n, full_name := "u/" ++ n, stargazers_count := stars,
    html_url := "https://github.com/u/" ++ n, isPrivate := false }

/-- A stargazer endpoint whose single page ends strictly before the
window start. -/
def apiStopPage : Nat → HttpResponse StargazerEvent := fun _ => okStarPage [evIn, evOut]

/-- A stargazer endpoint whose pages are full and end exactly at the
window boundary. -/
def apiBoundaryPage : Nat → HttpResponse StargazerEvent :=
  fun _ => okStarPage (List.replicate 99 evIn ++ [evBoundary])

/-- A stargazer endpoint that answers page 2 with a 404 after a full
in-window page 1. -/
def api404After : Nat → HttpResponse StargazerEvent :=
  fun p => if p = 2 then notFoundStarPage else okStarPage (List.replicate 100 evIn)

/-- A per-repository stargazer endpoint serving one in-window event to
every repository. -/
def apiAllGood : String → Nat → HttpResponse StargazerEvent := fun _ _ => okStarPage [evIn]

/-- Two starred repositories for the clock-straddling run. -/
def reposStraddle : List Repository := [repoStar "a" 1, repoStar "b" 1]

/-- Clock readings that straddle a year boundary: task i starts in year
2025 + i. -/
def straddleYears : Nat → Nat := fun i => 2025 + i

/-- A repository-list endpoint answering 404. -/
def apiRepo404 : Nat → HttpResponse Repository :=
  fun _ => { status := 404, statusText := "Not Found", data := [] }

/-- A repository-list endpoint answering 500. -/
def apiRepo500 : Nat → HttpResponse Repository :=
  fun _ => { status := 500, statusText := "Internal Server Error", data := [] }

/-- A public and a private repository. -/
def repoPub : Repository := repoStar "pub" 4

/-- A private repository, filtered out by the Lister. -/
def repoPriv : Repository :=
  { name := "priv", full_name := "u/priv", stargazers_count := 2,
    html_url := "https://github.com/u/priv", isPrivate := true }

/-- A repository-list endpoint with one short page. -/
def apiShortPage : Nat → HttpResponse Repository := fun _ => okRepoPage [repoPub, repoPriv]

/-- A repository-list endpoint with one full page followed by an empty
page. -/
def apiFullThenEmpty : Nat → HttpResponse Repository :=
  fun p => if p = 1 then okRepoPage (List.replicate 100 repoPub) else okRepoPage []

/-- A per-repository stargazer endpoint that hard-fails for the
repository named bad and serves everyone else. -/
def apiPerRepo : String → Nat → HttpResponse StargazerEvent :=
  fun name _ => if name = "bad" then errorStarPage else okStarPage [evIn]

/-- An eligible repository whose fetch succeeds. -/
def repoGood : Repository := repoStar "good" 3

/-- An eligible repository whose fetch hard-fails under apiPerRepo. -/
def repoBad : Repository := repoStar "bad" 2

/-- A repository with zero lifetime stars, excluded before fetching. -/
def repoZero : Repository := repoStar "zero" 0

/-- A repository list mixing starred and zero-star repositories. -/
def reposMix : List Repository := [repoStar "a" 2, repoZero, repoStar "b" 1]

/-- A per-repository endpoint that differs from apiAllGood only on the
zero-star repository's name. -/
def apiAllGoodZeroBroken : String → Nat → HttpResponse StargazerEvent :=
  fun name p => if name = "zero" then errorStarPage else apiAllGood name p

/-- Two starred repositories for the completion-order runs. -/
def starredPair : List Repository := [repoStar "p" 1, repoStar "q" 1]

/-- Seven eligible repositories for the concurrency bound. -/
def reposSeven : List Repository :=
  [repoStar "r1" 1, repoStar "r2" 1, repoStar "r3" 1, repoStar "r4" 1,
   repoStar "r5" 1, repoStar "r6" 1, repoStar "r7" 1]

/-- The spec's running example after aggregation: A earned 3 of its 5
stars in the window, B earned 0 of its 10 (C, with zero lifetime stars,
was excluded before fetching). -/
def exampleResults : List RepoStarResult :=
  [{ name := "A", fullName := "u/A", totalStars := 5, starsThisYear := 3,
     url := "https://github.com/u/A" },
   { name := "B", fullName := "u/B", totalStars := 10, starsThisYear := 0,
     url := "https://github.com/u/B" }]

/-- Two results tied on the in-window count, for the stability run. -/
def tiedResults : List RepoStarResult :=
  [{ name := "p", fullName := "u/p", totalStars := 9, starsThisYear := 1,
     url := "https://github.com/u/p" },
   { name := "q", fullName := "u/q", totalStars := 4, starsThisYear := 1,
     url := "https://github.com/u/q" }]

/-! Helper lemmas shared by the claim theorems. -/

/-- Folding an if-then-increment over a list counts the elements
satisfying the predicate. -/
theorem foldl_count {α : Type} (p : α → Bool) :
    ∀ (l : List α) (acc : Nat),
      l.foldl (fun n a => if p a then n + 1 else n) acc = acc + l.countP p
  | [], acc => by simp
  | x :: xs, acc => by
    simp only [List.foldl_cons, List.countP_cons, foldl_count p xs]
    by_cases h : p x = true
    · simp only [h, if_true]
      omega
    · simp [h]

/-- The per-page counting loop counts exactly the events at or after
the window start. -/
theorem countStars_spec (s : String) (data : List StargazerEvent) (acc : Nat) :
    countStars s data acc = acc + data.countP (fun e => strGe e.starred_at s) :=
  foldl_count _ data acc

/-- C1: for every repository and stargazer page, an event is counted
exactly when its timestamp is at or after the window start (inclusive
lower bound); every item of the current page is counted before the
early-stop check; with an in-range page whose last event is strictly
before the window start the loop stops, its whole page counted, with no
further fetch; and with a full page whose last event is not strictly
before the boundary (in particular a last event exactly at the
boundary) the loop issues the next page fetch. -/
theorem window_counter_boundary_semantics :
    (∀ (s : String) (data : List StargazerEvent) (acc : Nat),
      countStars s data acc = acc + data.countP (fun e => strGe e.starred_at s))
    ∧
    (∀ (api : Nat → HttpResponse StargazerEvent) (owner repo s : String)
      (fuel page acc fetches : Nat) (last : StargazerEvent),
      (api page).ok = true →
      (api page).data.getLast? = some last →
      strLt last.starred_at s = true →
      getStarsThisYearLoop api owner repo s (fuel + 1) page acc fetches
        = some (.ok (acc + (api page).data.countP (fun e => strGe e.starred_at s), fetches + 1)))
    ∧
    (∀ (api : Nat → HttpResponse StargazerEvent) (owner repo s : String)
      (fuel page acc fetches : Nat) (last : StargazerEvent),
      (api page).ok = true →
      (api page).data.getLast? = some last →
      strLt last.starred_at s = false →
      perPage ≤ (api page).data.length →
      getStarsThisYearLoop api owner repo s (fuel + 1) page acc fetches
        = getStarsThisYearLoop api owner repo s fuel (page + 1)
            (acc + (api page).data.countP (fun e => strGe e.starred_at s)) (fetches + 1)) := by
  refine ⟨countStars_spec, ?_, ?_⟩
  · intro api owner repo s fuel page acc fetches last hok hlast hlt
    have hne : (api page).data ≠ [] := by
      intro h
      rw [h] at hlast
      simp at hlast
    have hlen : ¬((api page).data.length = 0) := fun h => hne (List.length_eq_zero.mp h)
    simp [getStarsThisYearLoop, hok, hlen, hlast, hlt, countStars_spec]
  · intro api owner repo s fuel page acc fetches last hok hlast hlt hfull
    have hne : (api page).data ≠ [] := by
      intro h
      rw [h] at hlast
      simp at hlast
    have hlen : ¬((api page).data.length = 0) := fun h => hne (List.length_eq_zero.mp h)
    have hnotlt : ¬((api page).data.length < perPage) := Nat.not_lt.mpr hfull
    simp [getStarsThisYearLoop, hok, hlen, hlast, hlt, hnotlt, countStars_spec]

set_option maxRecDepth 10000 in
/-- Witness for C1 at concrete pages: a page whose last event is out of
window stops the loop with the whole page counted, and a full page whose
last event sits exactly on the boundary leads to the next fetch. -/
theorem window_counter_boundary_semantics_witness :
    ((apiStopPage 1).ok = true ∧ (apiStopPage 1).data.getLast? = some evOut ∧
      strLt evOut.starred_at (isoYearStart 2025) = true ∧
      getStarsThisYearLoop apiStopPage "u" "r" (isoYearStart 2025) 1 1 0 0
        = some (.ok (0 + (apiStopPage 1).data.countP
            (fun e => strGe e.starred_at (isoYearStart 2025)), 0 + 1)))
    ∧ ((apiBoundaryPage 1).ok = true ∧ (apiBoundaryPage 1).data.getLast? = some evBoundary ∧
      strLt evBoundary.starred_at (isoYearStart 2025) = false ∧
      perPage ≤ (apiBoundaryPage 1).data.length ∧
      getStarsThisYearLoop apiBoundaryPage "u" "r" (isoYearStart 2025) 1 1 0 0
        = getStarsThisYearLoop apiBoundaryPage "u" "r" (isoYearStart 2025) 0 2
            (0 + (apiBoundaryPage 1).data.countP
              (fun e => strGe e.starred_at (isoYearStart 2025))) (0 + 1)) :=
  ⟨⟨by decide, by decide, by decide,
      window_counter_boundary_semantics.2.1 apiStopPage "u" "r" (isoYearStart 2025) 0 1 0 0 evOut
        (by decide) (by decide) (by decide)⟩,
    ⟨by decide, by decide, by decide, by decide,
      window_counter_boundary_semantics.2.2 apiBoundaryPage "u" "r" (isoYearStart 2025) 0 1 0 0
        evBoundary (by decide) (by decide) (by decide) (by decide)⟩⟩

/-- C2: a 404 on any stargazers page, at any point of the pagination
and with any already-accumulated in-window count, makes the Window
Counter return the count 0 with no error; in particular a 404 on the
first page makes getStarsThisYear return 0. -/
theorem stargazer_404_soft_failure :
    (∀ (api : Nat → HttpResponse StargazerEvent) (owner repo s : String)
      (fuel page acc fetches : Nat),
      (api page).ok = false →
      (api page).status = 404 →
      getStarsThisYearLoop api owner repo s (fuel + 1) page acc fetches
        = some (.ok (0, fetches + 1)))
    ∧
    (∀ (api : Nat → HttpResponse StargazerEvent) (owner repo : String) (year fuel : Nat),
      (api 1).ok = false →
      (api 1).status = 404 →
      getStarsThisYear api owner repo year (fuel + 1) = some (.ok 0)) := by
  constructor
  · intro api owner repo s fuel page acc fetches hok h404
    simp [getStarsThisYearLoop, hok, h404]
  · intro api owner repo year fuel hok h404
    simp [getStarsThisYear, getStarsThisYearLoop, hok, h404, Except.map]

set_option maxRecDepth 10000 in
/-- Witness for C2: page 2 answers 404 after page 1 already contributed
100 in-window events (the accumulated count is discarded and the
counter yields 0). -/
theorem stargazer_404_soft_failure_witness :
    ((api404After 2).ok = false ∧ (api404After 2).status = 404 ∧
      getStarsThisYearLoop api404After "u" "r" (isoYearStart 2025) 1 2 100 1
        = some (.ok (0, 1 + 1)))
    ∧ getStarsThisYear api404After "u" "r" 2025 2 = some (.ok 0) :=
  ⟨⟨by decide, by decide,
      stargazer_404_soft_failure.1 api404After "u" "r" (isoYearStart 2025) 0 2 100 1
        (by decide) (by decide)⟩,
    by decide⟩

/-- C3 counterexample: the code does not compute the window boundary
once per run. With clock readings that straddle a year boundary (task 0
starts in 2025, task 1 in 2026) the aggregation differs from the run
that uses the run-start boundary for every comparison: the second
repository's identical in-window event is not counted, because each
counter invocation derives a fresh boundary from the clock at its own
start (src/index.ts lines 71-72 run inside getStarsThisYear). -/
theorem window_boundary_not_once_per_run :
    aggregateResults apiAllGood "u" straddleYears 3 reposStraddle
      ≠ aggregateResults apiAllGood "u" (fun _ => straddleYears 0) 3 reposStraddle
    ∧ aggregateResults apiAllGood "u" straddleYears 3 reposStraddle
        = some (.ok
          [{ name := "a", fullName := "u/a", totalStars := 1, starsThisYear := 1,
             url := "https://github.com/u/a" },
           { name := "b", fullName := "u/b", totalStars := 1, starsThisYear := 0,
             url := "https://github.com/u/b" }])
    ∧ aggregateResults apiAllGood "u" (fun _ => straddleYears 0) 3 reposStraddle
        = some (.ok
          [{ name := "a", fullName := "u/a", totalStars := 1, starsThisYear := 1,
             url := "https://github.com/u/a" },
           { name := "b", fullName := "u/b", totalStars := 1, starsThisYear := 1,
             url := "https://github.com/u/b" }]) := by
  refine ⟨by decide, by decide, by decide⟩

/-- C3 amended: the window boundary is computed once per counter
invocation, from the process-local clock read at the start of that
invocation, and that single boundary is used for every comparison of
that repository's pagination; when every clock reading of the run falls
in the same year, the aggregation coincides with one using the single
run-start boundary for all repositories. -/
theorem window_boundary_per_invocation :
    (∀ (api : Nat → HttpResponse StargazerEvent) (owner repo : String) (year fuel : Nat),
      getStarsThisYear api owner repo year fuel
        = (getStarsThisYearLoop api owner repo (isoYearStart year) fuel 1 0 0).map
            (Except.map Prod.fst))
    ∧
    (∀ (api : String → Nat → HttpResponse StargazerEvent) (username : String)
      (yearAt : Nat → Nat) (y fuel : Nat) (starred : List Repository) (i : Nat),
      (∀ j, yearAt j = y) →
      aggregateLoop api username yearAt fuel starred i
        = aggregateLoop api username (fun _ => y) fuel starred i) := by
  constructor
  · intro api owner repo year fuel
    rfl
  · intro api username yearAt y fuel starred
    induction starred with
    | nil => intro i h; rfl
    | cons repo rest ih =>
      intro i h
      simp only [aggregateLoop, h i, ih (i + 1) h]

/-- Witness for the amended C3: a run whose clock readings all return
2025 aggregates exactly as the run with the single boundary. -/
theorem window_boundary_per_invocation_witness :
    (∀ j, (fun _ : Nat => 2025) j = 2025) ∧
    aggregateLoop apiAllGood "u" (fun _ => 2025) 3 reposStraddle 0
      = aggregateLoop apiAllGood "u" (fun _ => 2025) 3 reposStraddle 0 :=
  ⟨fun _ => rfl,
    window_boundary_per_invocation.2 apiAllGood "u" (fun _ => 2025) 2025 3 reposStraddle 0
      (fun _ => rfl)⟩

/-- C4: for the repository-list paginator, a 2xx page with fewer than
100 items (the empty page included) ends the loop at exactly that
fetch; a 2xx page with 100 items leads to exactly one further fetch of
page + 1, and when that next page is empty the loop ends after that one
extra fetch; page indices start at 1 and increase by 1 per fetch. -/
theorem repo_paginator_termination :
    (∀ (api : Nat → HttpResponse Repository) (fuel page fetches : Nat) (repos : List Repository),
      (api page).ok = true →
      (api page).data.length < perPage →
      getPublicReposLoop api (fuel + 1) page repos fetches
        = some (.ok (repos ++ (api page).data.filter (fun repo => !repo.isPrivate), fetches + 1)))
    ∧
    (∀ (api : Nat → HttpResponse Repository) (fuel page fetches : Nat) (repos : List Repository),
      (api page).ok = true →
      perPage ≤ (api page).data.length →
      getPublicReposLoop api (fuel + 1) page repos fetches
        = getPublicReposLoop api fuel (page + 1)
            (repos ++ (api page).data.filter (fun repo => !repo.isPrivate)) (fetches + 1))
    ∧
    (∀ (api : Nat → HttpResponse Repository) (fuel page fetches : Nat) (repos : List Repository),
      (api page).ok = true →
      (api page).data.length = perPage →
      (api (page + 1)).ok = true →
      (api (page + 1)).data.length = 0 →
      getPublicReposLoop api (fuel + 2) page repos fetches
        = some (.ok (repos ++ (api page).data.filter (fun repo => !repo.isPrivate), fetches + 2)))
    ∧
    (∀ (api : Nat → HttpResponse Repository) (fuel : Nat),
      getPublicRepos api fuel
        = (getPublicReposLoop api fuel 1 [] 0).map (Except.map Prod.fst)) := by
  have hshort : ∀ (api : Nat → HttpResponse Repository) (fuel page fetches : Nat)
      (repos : List Repository),
      (api page).ok = true →
      (api page).data.length < perPage →
      getPublicReposLoop api (fuel + 1) page repos fetches
        = some (.ok (repos ++ (api page).data.filter (fun repo => !repo.isPrivate),
            fetches + 1)) := by
    intro api fuel page fetches repos hok hlt
    by_cases hz : (api page).data.length = 0
    · have hnil : (api page).data = [] := List.length_eq_zero.mp hz
      simp [getPublicReposLoop, hok, hz, hnil]
    · simp [getPublicReposLoop, hok, hz, hlt]
  have hfull : ∀ (api : Nat → HttpResponse Repository) (fuel page fetches : Nat)
      (repos : List Repository),
      (api page).ok = true →
      perPage ≤ (api page).data.length →
      getPublicReposLoop api (fuel + 1) page repos fetches
        = getPublicReposLoop api fuel (page + 1)
            (repos ++ (api page).data.filter (fun repo => !repo.isPrivate)) (fetches + 1) := by
    intro api fuel page fetches repos hok hge
    have hz : ¬((api page).data.length = 0) := by
      intro h
      rw [h] at hge
      exact absurd hge (by simp [perPage])
    have hnl : ¬((api page).data.length < perPage) := Nat.not_lt.mpr hge
    simp [getPublicReposLoop, hok, hz, hnl]
  refine ⟨hshort, hfull, ?_, fun api fuel => rfl⟩
  intro api fuel page fetches repos hok hlen hok2 hlen2
  rw [show fuel + 2 = (fuel + 1) + 1 from rfl,
    hfull api (fuel + 1) page fetches repos hok (le_of_eq hlen.symm),
    hshort api fuel (page + 1) (fetches + 1) _ hok2 (by simp [hlen2, perPage]),
    List.length_eq_zero.mp hlen2]
  simp

set_option maxRecDepth 10000 in
/-- Witness for C4: a short page (its private repository filtered out)
terminates at one fetch, and a full page followed by an empty page
terminates after exactly one extra fetch. -/
theorem repo_paginator_termination_witness :
    ((apiShortPage 1).ok = true ∧ (apiShortPage 1).data.length < perPage ∧
      getPublicReposLoop apiShortPage 1 1 [] 0
        = some (.ok ([] ++ (apiShortPage 1).data.filter (fun repo => !repo.isPrivate), 0 + 1)))
    ∧ ((apiFullThenEmpty 1).ok = true ∧ (apiFullThenEmpty 1).data.length = perPage ∧
      (apiFullThenEmpty 2).ok = true ∧ (apiFullThenEmpty 2).data.length = 0 ∧
      getPublicReposLoop apiFullThenEmpty 2 1 [] 0
        = some (.ok ([] ++ (apiFullThenEmpty 1).data.filter (fun repo => !repo.isPrivate),
            0 + 2))) :=
  ⟨⟨by decide, by decide,
      repo_paginator_termination.1 apiShortPage 0 1 0 [] (by decide) (by decide)⟩,
    ⟨by decide, by decide, by decide, by decide,
      repo_paginator_termination.2.2.1 apiFullThenEmpty 0 1 0 [] (by decide) (by decide)
        (by decide) (by decide)⟩⟩

/-- C5 counterexample: a 404 from the repository-list endpoint is not
translated into an empty repository list; getPublicRepos fails with the
descriptive error exactly as for any other non-2xx status
(src/index.ts lines 55-57 have no 404 case). -/
theorem lister_404_counterexample :
    getPublicRepos apiRepo404 1 = some (.error "Failed to fetch repositories: Not Found")
    ∧ getPublicRepos apiRepo404 1 ≠ some (.ok []) := by
  exact ⟨by decide, by decide⟩

/-- C5 amended: any non-2xx response from the repository-list endpoint,
404 included, aborts the Repository Lister's pagination loop
immediately with a descriptive error naming the endpoint and its
status text; the 404-to-zero translation exists only in the stargazer
Window Counter, not in the Repository Lister. -/
theorem lister_non2xx_aborts :
    ∀ (api : Nat → HttpResponse Repository) (fuel page fetches : Nat) (repos : List Repository),
      (api page).ok = false →
      getPublicReposLoop api (fuel + 1) page repos fetches
        = some (.error ("Failed to fetch repositories: " ++ (api page).statusText)) := by
  intro api fuel page fetches repos hok
  simp [getPublicReposLoop, hok]

/-- Witness for the amended C5: a 500 status on page 3, with repositories
already accumulated, aborts with the descriptive error. -/
theorem lister_non2xx_aborts_witness :
    (apiRepo500 3).ok = false ∧
    getPublicReposLoop apiRepo500 1 3 [repoPub] 2
      = some (.error ("Failed to fetch repositories: " ++ (apiRepo500 3).statusText)) :=
  ⟨by decide, lister_non2xx_aborts apiRepo500 0 3 2 [repoPub] (by decide)⟩

/-- C6: a non-2xx, non-404 status on any stargazers page makes the
Window Counter fail with an error naming the owner/repository pair, and
when an eligible repository's task fails hard while every repository
before it in list order succeeds, the whole aggregation rejects with
that error and no RepoStarResult list is produced. -/
theorem stargazer_hard_error_aborts :
    (∀ (api : Nat → HttpResponse StargazerEvent) (owner repo s : String)
      (fuel page acc fetches : Nat),
      (api page).ok = false →
      (api page).status ≠ 404 →
      getStarsThisYearLoop api owner repo s (fuel + 1) page acc fetches
        = some (.error ("Failed to fetch stargazers for " ++ owner ++ "/" ++ repo ++ ": "
            ++ (api page).statusText)))
    ∧
    (∀ (api : String → Nat → HttpResponse StargazerEvent) (username : String)
      (yearAt : Nat → Nat) (fuel : Nat) (pre post : List Repository) (r : Repository)
      (i : Nat) (e : String),
      (∀ (j : Nat) (repo : Repository), pre[j]? = some repo →
        ∃ res, runTask api username (yearAt (i + j)) fuel repo = some (.ok res)) →
      runTask api username (yearAt (i + pre.length)) fuel r = some (.error e) →
      aggregateLoop api username yearAt fuel (pre ++ r :: post) i = some (.error e)) := by
  constructor
  · intro api owner repo s fuel page acc fetches hok hst
    simp [getStarsThisYearLoop, hok, hst]
  · intro api username yearAt fuel pre
    induction pre with
    | nil =>
      intro post r i e _ hr
      have hr' : runTask api username (yearAt i) fuel r = some (.error e) := by
        simpa using hr
      simp only [List.nil_append, aggregateLoop, hr']
    | cons p rest ih =>
      intro post r i e hpre hr
      obtain ⟨res, hres⟩ := hpre 0 p (by simp)
      have hres' : runTask api username (yearAt i) fuel p = some (.ok res) := by
        simpa using hres
      have hpre' : ∀ (j : Nat) (repo : Repository), rest[j]? = some repo →
          ∃ res, runTask api username (yearAt (i + 1 + j)) fuel repo = some (.ok res) := by
        intro j repo h
        have := hpre (j + 1) repo (by simpa using h)
        rwa [show i + (j + 1) = i + 1 + j by omega] at this
      have hr' : runTask api username (yearAt (i + 1 + rest.length)) fuel r
          = some (.error e) := by
        rwa [show i + (p :: rest).length = i + 1 + rest.length by simp; omega] at hr
      have hrec := ih post r (i + 1) e hpre' hr'
      simp only [List.cons_append, aggregateLoop, hres', List.append_eq, hrec]

/-- Witness for C6: with the good repository first, the bad
repository's 500 status rejects the whole aggregation with the error
naming u/bad, and no result list is produced. -/
theorem stargazer_hard_error_aborts_witness :
    ((∀ (j : Nat) (repo : Repository), [repoGood][j]? = some repo →
        ∃ res, runTask apiPerRepo "u" ((fun _ : Nat => 2025) (0 + j)) 2 repo = some (.ok res))
      ∧ runTask apiPerRepo "u" ((fun _ : Nat => 2025) (0 + [repoGood].length)) 2 repoBad
          = some (.error "Failed to fetch stargazers for u/bad: Internal Server Error"))
    ∧ aggregateLoop apiPerRepo "u" (fun _ => 2025) 2 ([repoGood] ++ repoBad :: []) 0
        = some (.error "Failed to fetch stargazers for u/bad: Internal Server Error") := by
  have hpre : ∀ (j : Nat) (repo : Repository), [repoGood][j]? = some repo →
      ∃ res, runTask apiPerRepo "u" ((fun _ : Nat => 2025) (0 + j)) 2 repo
        = some (.ok res) := by
    intro j repo h
    match j with
    | 0 =>
      simp only [List.getElem?_cons_zero, Option.some.injEq] at h
      subst h
      exact ⟨_, rfl⟩
    | j + 1 => simp at h
  have hr : runTask apiPerRepo "u" ((fun _ : Nat => 2025) (0 + [repoGood].length)) 2 repoBad
      = some (.error "Failed to fetch stargazers for u/bad: Internal Server Error") := by
    decide
  exact ⟨⟨hpre, hr⟩,
    stargazer_hard_error_aborts.2 apiPerRepo "u" (fun _ => 2025) 2 [repoGood] [] repoBad 0 _
      hpre hr⟩

/-- Every successful aggregation yields exactly one result per input
repository, in list order (witnessed by the name sequence). -/
theorem aggregateLoop_names (api : String → Nat → HttpResponse StargazerEvent)
    (username : String) (yearAt : Nat → Nat) (fuel : Nat) :
    ∀ (starred : List Repository) (i : Nat) (results : List RepoStarResult),
      aggregateLoop api username yearAt fuel starred i = some (.ok results) →
      results.map (fun r => r.name) = starred.map (fun repo => repo.name)
  | [], i, results => by
    intro h
    simp only [aggregateLoop, Option.some.injEq, Except.ok.injEq] at h
    subst h
    rfl
  | repo :: rest, i, results => by
    intro h
    simp only [aggregateLoop] at h
    cases hg : getStarsThisYear (api repo.name) username repo.name (yearAt i) fuel with
    | none => rw [runTask, hg] at h; simp [Except.map] at h
    | some v =>
      cases v with
      | error e => rw [runTask, hg] at h; simp [Except.map] at h
      | ok n =>
        rw [runTask, hg] at h
        simp only [Option.map_some', Except.map] at h
        cases hagg : aggregateLoop api username yearAt fuel rest (i + 1) with
        | none => rw [hagg] at h; simp at h
        | some w =>
          cases w with
          | error e => rw [hagg] at h; simp at h
          | ok rs =>
            rw [hagg] at h
            simp only [Option.some.injEq, Except.ok.injEq] at h
            subst h
            simp only [List.map_cons]
            rw [aggregateLoop_names api username yearAt fuel rest (i + 1) rs hagg]

/-- The aggregation only consults the stargazer endpoints of the
repositories it is given. -/
theorem aggregateLoop_api_congr (api api' : String → Nat → HttpResponse StargazerEvent)
    (username : String) (yearAt : Nat → Nat) (fuel : Nat) :
    ∀ (starred : List Repository) (i : Nat),
      (∀ repo, repo ∈ starred → ∀ page, api repo.name page = api' repo.name page) →
      aggregateLoop api username yearAt fuel starred i
        = aggregateLoop api' username yearAt fuel starred i
  | [], i => fun _ => rfl
  | repo :: rest, i => by
    intro hx
    have hf : api repo.name = api' repo.name :=
      funext (hx repo (List.mem_cons_self repo rest))
    have hrt : runTask api username (yearAt i) fuel repo
        = runTask api' username (yearAt i) fuel repo := by
      rw [runTask, runTask, hf]
    have hrest := aggregateLoop_api_congr api api' username yearAt fuel rest (i + 1)
      (fun r hr page => hx r (List.mem_cons_of_mem repo hr) page)
    simp only [aggregateLoop, hrt, hrest]

/-- C7: a successful run produces exactly one RepoStarResult per listed
repository with nonzero lifetime stars, in repository-list order, so
the result count equals the count of such repositories; and the
aggregation never consults the stargazer endpoint of a zero-star
repository (two endpoints agreeing on the eligible repositories give
identical aggregations). -/
theorem aggregator_result_count :
    (∀ (api : String → Nat → HttpResponse StargazerEvent) (username : String)
      (yearAt : Nat → Nat) (fuel : Nat) (repos : List Repository)
      (results : List RepoStarResult),
      aggregateResults api username yearAt fuel repos = some (.ok results) →
      results.map (fun r => r.name) = (eligibleRepos repos).map (fun repo => repo.name)
        ∧ results.length
            = (repos.filter (fun repo => decide (0 < repo.stargazers_count))).length)
    ∧
    (∀ (api api' : String → Nat → HttpResponse StargazerEvent) (username : String)
      (yearAt : Nat → Nat) (fuel : Nat) (repos : List Repository),
      (∀ repo, repo ∈ eligibleRepos repos → ∀ page, api repo.name page = api' repo.name page) →
      aggregateResults api username yearAt fuel repos
        = aggregateResults api' username yearAt fuel repos) := by
  constructor
  · intro api username yearAt fuel repos results h
    have hnames := aggregateLoop_names api username yearAt fuel (eligibleRepos repos) 0 results h
    refine ⟨hnames, ?_⟩
    have := congrArg List.length hnames
    simpa [eligibleRepos] using this
  · intro api api' username yearAt fuel repos hx
    exact aggregateLoop_api_congr api api' username yearAt fuel (eligibleRepos repos) 0 hx

/-- Witness for C7: on a list with a zero-star repository between two
starred ones, the successful aggregation has exactly the two eligible
names, and breaking only the zero-star repository's endpoint does not
change the aggregation. -/
theorem aggregator_result_count_witness :
    (aggregateResults apiAllGood "u" (fun _ => 2025) 2 reposMix
        = some (.ok
          [{ name := "a", fullName := "u/a", totalStars := 2, starsThisYear := 1,
             url := "https://github.com/u/a" },
           { name := "b", fullName := "u/b", totalStars := 1, starsThisYear := 1,
             url := "https://github.com/u/b" }])
      ∧ [{ name := "a", fullName := "u/a", totalStars := 2, starsThisYear := 1,
             url := "https://github.com/u/a" },
           { name := "b", fullName := "u/b", totalStars := 1, starsThisYear := 1,
             url := "https://github.com/u/b" }].map (fun r : RepoStarResult => r.name)
          = (eligibleRepos reposMix).map (fun repo => repo.name))
    ∧ aggregateResults apiAllGood "u" (fun _ => 2025) 2 reposMix
        = aggregateResults apiAllGoodZeroBroken "u" (fun _ => 2025) 2 reposMix := by
  have hagg : aggregateResults apiAllGood "u" (fun _ => 2025) 2 reposMix
      = some (.ok
        [{ name := "a", fullName := "u/a", totalStars := 2, starsThisYear := 1,
           url := "https://github.com/u/a" },
         { name := "b", fullName := "u/b", totalStars := 1, starsThisYear := 1,
           url := "https://github.com/u/b" }]) := by decide
  have hx : ∀ repo, repo ∈ eligibleRepos reposMix →
      ∀ page, apiAllGood repo.name page = apiAllGoodZeroBroken repo.name page := by
    intro repo hmem page
    rw [show eligibleRepos reposMix = [repoStar "a" 2, repoStar "b" 1] from rfl] at hmem
    simp only [List.mem_cons, List.not_mem_nil, or_false] at hmem
    rcases hmem with rfl | rfl
    · rfl
    · rfl
  exact ⟨⟨hagg,
      (aggregator_result_count.1 apiAllGood "u" (fun _ => 2025) 2 reposMix _ hagg).1⟩,
    aggregator_result_count.2 apiAllGood apiAllGoodZeroBroken "u" (fun _ => 2025) 2 reposMix hx⟩

/-- Folding a running addition over a list sums the mapped values. -/
theorem foldl_add {α : Type} (f : α → Nat) :
    ∀ (l : List α) (acc : Nat), l.foldl (fun s a => s + f a) acc = acc + (l.map f).sum
  | [], acc => by simp
  | x :: xs, acc => by
    simp only [List.foldl_cons, List.map_cons, List.sum_cons, foldl_add f xs]
    omega

/-- C8: the Ranker sorts descending by in-window count on a permutation
of the results; the two totals are the sums over all results, the
zero-window ones included; the displayed subset is the first 10 of the
post-sort positive-window results; the three column widths are computed
from that displayed subset only; and on the spec's example (A lifetime
5 window 3, B lifetime 10 window 0, C lifetime 0) the eligible set is
A and B, the totals are 3 and 15, and only A appears in the table. -/
theorem ranker_semantics :
    (∀ results : List RepoStarResult,
      List.Sorted (fun a b => b.starsThisYear ≤ a.starsThisYear) (makeSummary results).sorted)
    ∧ (∀ results : List RepoStarResult, (makeSummary results).sorted.Perm results)
    ∧ (∀ results : List RepoStarResult,
        (makeSummary results).totalStarsThisYear
          = (results.map (fun r => r.starsThisYear)).sum)
    ∧ (∀ results : List RepoStarResult,
        (makeSummary results).totalStarsAllTime = (results.map (fun r => r.totalStars)).sum)
    ∧ (∀ results : List RepoStarResult,
        (makeSummary results).top10
          = ((makeSummary results).sorted.filter (fun r => decide (0 < r.starsThisYear))).take 10)
    ∧ (∀ results : List RepoStarResult,
        (makeSummary results).maxNameLen
            = listMax ((makeSummary results).top10.map (fun r => r.name.length))
          ∧ (makeSummary results).maxStarsLen
            = listMax ((makeSummary results).top10.map
                (fun r => (toString r.starsThisYear).length))
          ∧ (makeSummary results).maxTotalLen
            = listMax ((makeSummary results).top10.map
                (fun r => (toString r.totalStars).length)))
    ∧ (eligibleRepos [repoStar "A" 5, repoStar "B" 10, repoStar "C" 0]
          = [repoStar "A" 5, repoStar "B" 10]
        ∧ (makeSummary exampleResults).totalStarsThisYear = 3
        ∧ (makeSummary exampleResults).totalStarsAllTime = 15
        ∧ (makeSummary exampleResults).top10.map (fun r => r.name) = ["A"]) := by
  haveI : IsTotal RepoStarResult (fun a b => b.starsThisYear ≤ a.starsThisYear) :=
    ⟨fun a b => Nat.le_total b.starsThisYear a.starsThisYear⟩
  haveI : IsTrans RepoStarResult (fun a b => b.starsThisYear ≤ a.starsThisYear) :=
    ⟨fun _ _ _ hab hbc => Nat.le_trans hbc hab⟩
  refine ⟨?_, ?_, ?_, ?_, fun results => rfl, fun results => ⟨rfl, rfl, rfl⟩,
    by decide, by decide, by decide, by decide⟩
  · intro results
    exact List.sorted_insertionSort _ results
  · intro results
    exact List.perm_insertionSort _ results
  · intro results
    show (sortResults results).foldl (fun sum r => sum + r.starsThisYear) 0 = _
    rw [foldl_add (fun r => r.starsThisYear) (sortResults results) 0, Nat.zero_add]
    exact ((List.perm_insertionSort _ results).map _).sum_eq
  · intro results
    show (sortResults results).foldl (fun sum r => sum + r.totalStars) 0 = _
    rw [foldl_add (fun r => r.totalStars) (sortResults results) 0, Nat.zero_add]
    exact ((List.perm_insertionSort _ results).map _).sum_eq

/-- Looking an index up in a tagged completion trace returns that
task's own output, wherever it sits in the trace. -/
theorem lookup_completionList {α : Type} (f : Nat → α) :
    ∀ (order : List Nat) (i : Nat), i ∈ order →
      (completionList order f).lookup i = some (f i)
  | [], i => by intro h; simp at h
  | j :: rest, i => by
    intro h
    by_cases hij : i = j
    · subst hij
      simp [completionList, List.lookup]
    · have hmem : i ∈ rest := by
        rcases List.mem_cons.mp h with h' | h'
        · exact absurd h' hij
        · exact h'
      have hbeq : (i == j) = false := beq_eq_false_iff_ne.mpr hij
      have hrec := lookup_completionList f rest i hmem
      simp only [completionList] at hrec
      simp [completionList, List.lookup, hbeq, hrec]

/-- The stable descending sort leaves each tie class in its original
relative order: filtering any fixed in-window count commutes with the
sort. -/
theorem sortResults_stable (results : List RepoStarResult) (k : Nat) :
    (sortResults results).filter (fun r => r.starsThisYear == k)
      = results.filter (fun r => r.starsThisYear == k) := by
  have hpair : (results.filter (fun r => r.starsThisYear == k)).Pairwise
      (fun a b => b.starsThisYear ≤ a.starsThisYear) := by
    apply List.pairwise_of_forall_mem_list
    intro a ha b hb
    have hak : a.starsThisYear = k := by simpa using (List.mem_filter.mp ha).2
    have hbk : b.starsThisYear = k := by simpa using (List.mem_filter.mp hb).2
    rw [hak, hbk]
  have hsub : List.Sublist (results.filter (fun r => r.starsThisYear == k))
      (sortResults results) :=
    List.sublist_insertionSort hpair (List.filter_sublist results)
  have hsub2 := hsub.filter (fun r => r.starsThisYear == k)
  rw [List.filter_filter] at hsub2
  simp only [Bool.and_self] at hsub2
  have hlen : ((sortResults results).filter (fun r => r.starsThisYear == k)).length
      = (results.filter (fun r => r.starsThisYear == k)).length :=
    (List.Perm.filter _ (List.perm_insertionSort _ results)).length_eq
  exact (hsub2.eq_of_length hlen.symm).symm

/-- C9: against a fixed remote data set, the assembled result sequence
is the repository-list-order sequence of task outputs for every task
completion order, hence any two completion orders (two runs included)
produce identical sequences; and the descending sort is stable, keeping
results with equal in-window counts in their repository-list relative
order. -/
theorem run_determinism :
    (∀ (api : String → Nat → HttpResponse StargazerEvent) (username : String)
      (yearAt : Nat → Nat) (fuel : Nat) (starred : List Repository) (order : List Nat),
      order.Perm (List.range starred.length) →
      assembleAll starred.length
          (completionList order
            (fun i => runTask api username (yearAt i) fuel (starred.getD i defaultRepo)))
        = (List.range starred.length).map
            (fun i => some (runTask api username (yearAt i) fuel (starred.getD i defaultRepo))))
    ∧
    (∀ (api : String → Nat → HttpResponse StargazerEvent) (username : String)
      (yearAt : Nat → Nat) (fuel : Nat) (starred : List Repository)
      (order₁ order₂ : List Nat),
      order₁.Perm (List.range starred.length) →
      order₂.Perm (List.range starred.length) →
      assembleAll starred.length
          (completionList order₁
            (fun i => runTask api username (yearAt i) fuel (starred.getD i defaultRepo)))
        = assembleAll starred.length
            (completionList order₂
              (fun i => runTask api username (yearAt i) fuel (starred.getD i defaultRepo))))
    ∧
    (∀ (results : List RepoStarResult) (k : Nat),
      (sortResults results).filter (fun r => r.starsThisYear == k)
        = results.filter (fun r => r.starsThisYear == k)) := by
  have ha : ∀ (api : String → Nat → HttpResponse StargazerEvent) (username : String)
      (yearAt : Nat → Nat) (fuel : Nat) (starred : List Repository) (order : List Nat),
      order.Perm (List.range starred.length) →
      assembleAll starred.length
          (completionList order
            (fun i => runTask api username (yearAt i) fuel (starred.getD i defaultRepo)))
        = (List.range starred.length).map
            (fun i => some (runTask api username (yearAt i) fuel
              (starred.getD i defaultRepo))) := by
    intro api username yearAt fuel starred order hperm
    apply List.map_congr_left
    intro i hi
    exact lookup_completionList _ order i (hperm.mem_iff.mpr hi)
  refine ⟨ha, ?_, sortResults_stable⟩
  intro api username yearAt fuel starred order₁ order₂ h₁ h₂
  rw [ha api username yearAt fuel starred order₁ h₁,
    ha api username yearAt fuel starred order₂ h₂]

/-- Witness for C9: with two repositories, the reversed completion
order assembles the same list-order sequence as the in-order
completion, and the tied results keep their original order through the
sort. -/
theorem run_determinism_witness :
    ([1, 0].Perm (List.range starredPair.length) ∧
      assembleAll starredPair.length
          (completionList [1, 0]
            (fun i => runTask apiAllGood "u" ((fun _ => 2025) i) 2
              (starredPair.getD i defaultRepo)))
        = (List.range starredPair.length).map
            (fun i => some (runTask apiAllGood "u" ((fun _ => 2025) i) 2
              (starredPair.getD i defaultRepo))))
    ∧ assembleAll starredPair.length
          (completionList [1, 0]
            (fun i => runTask apiAllGood "u" ((fun _ => 2025) i) 2
              (starredPair.getD i defaultRepo)))
        = assembleAll starredPair.length
            (completionList [0, 1]
              (fun i => runTask apiAllGood "u" ((fun _ => 2025) i) 2
                (starredPair.getD i defaultRepo)))
    ∧ (sortResults tiedResults).filter (fun r => r.starsThisYear == 1)
        = tiedResults.filter (fun r => r.starsThisYear == 1) := by
  have hp1 : [1, 0].Perm (List.range starredPair.length) := by decide
  have hp2 : [0, 1].Perm (List.range starredPair.length) := by decide
  exact ⟨⟨hp1, run_determinism.1 apiAllGood "u" (fun _ => 2025) 2 starredPair [1, 0] hp1⟩,
    run_determinism.2.1 apiAllGood "u" (fun _ => 2025) 2 starredPair [1, 0] [0, 1] hp1 hp2,
    run_determinism.2.2 tiedResults 1⟩

/-- Starting queued tasks never pushes the in-flight count past the
ceiling. -/
theorem startQueued_running_le :
    ∀ (q running : List Nat), running.length ≤ concurrencyLimit →
      (startQueued q running).2.length ≤ concurrencyLimit
  | [], _ => fun h => h
  | t :: rest, running => by
    intro h
    by_cases hlt : running.length < concurrencyLimit
    · simp only [startQueued, hlt, if_true]
      exact startQueued_running_le rest (running ++ [t]) (by simp; omega)
    · simp only [startQueued, hlt, if_false]
      exact h

/-- If tasks remain queued after the refill, every slot is taken. -/
theorem startQueued_eager :
    ∀ (q running : List Nat), (startQueued q running).1 ≠ [] →
      concurrencyLimit ≤ (startQueued q running).2.length
  | [], running => by intro h; simp [startQueued] at h
  | t :: rest, running => by
    intro h
    by_cases hlt : running.length < concurrencyLimit
    · simp only [startQueued, hlt, if_true] at h ⊢
      exact startQueued_eager rest (running ++ [t]) h
    · simp only [startQueued, hlt, if_false]
      omega

/-- Every reachable limiter state is the outcome of a refill from a
within-ceiling running set. -/
def limiterInv (s : LimiterState) : Prop :=
  ∃ q r, r.length ≤ concurrencyLimit ∧ s.queued = (startQueued q r).1
    ∧ s.running = (startQueued q r).2

/-- The invariant holds initially. -/
theorem limiterInv_init (n : Nat) : limiterInv (initLimiter n) :=
  ⟨List.range n, [], by simp [concurrencyLimit], rfl, rfl⟩

/-- The invariant is preserved by a task completion. -/
theorem limiterInv_step (s : LimiterState) (c : Nat) (h : limiterInv s) :
    limiterInv (stepLimiter s c) := by
  obtain ⟨q, r, hr, _, hrun⟩ := h
  refine ⟨s.queued, s.running.erase c, ?_, rfl, rfl⟩
  calc (s.running.erase c).length ≤ s.running.length := List.length_erase_le c s.running
    _ ≤ concurrencyLimit := by rw [hrun]; exact startQueued_running_le q r hr

/-- The invariant is preserved by any completion sequence. -/
theorem limiterInv_foldl :
    ∀ (choices : List Nat) (s : LimiterState), limiterInv s →
      limiterInv (choices.foldl stepLimiter s)
  | [], _ => fun h => h
  | c :: cs, s => fun h => limiterInv_foldl cs (stepLimiter s c) (limiterInv_step s c h)

/-- C10: for any number of eligible repositories and any sequence of
task completions, the limiter never has more than 5 per-repository
fetch sequences in flight, and whenever repositories are still queued
every one of the 5 slots is occupied (a completion is immediately
followed by the next queued repository starting). -/
theorem aggregator_concurrency_bound :
    ∀ (repos : List Repository) (choices : List Nat),
      (runSchedule (eligibleRepos repos).length choices).running.length ≤ concurrencyLimit
      ∧ ((runSchedule (eligibleRepos repos).length choices).queued ≠ [] →
          (runSchedule (eligibleRepos repos).length choices).running.length
            = concurrencyLimit) := by
  intro repos choices
  simp only [runSchedule]
  obtain ⟨q, r, hr, hq, hrun⟩ :=
    limiterInv_foldl choices (initLimiter (eligibleRepos repos).length)
      (limiterInv_init (eligibleRepos repos).length)
  constructor
  · rw [hrun]
    exact startQueued_running_le q r hr
  · intro hne
    rw [hq] at hne
    rw [hrun]
    have h1 := startQueued_eager q r hne
    have h2 := startQueued_running_le q r hr
    omega

/-- Witness for C10: with 7 eligible repositories and one completion,
tasks are still queued and exactly 5 are in flight. -/
theorem aggregator_concurrency_bound_witness :
    (runSchedule (eligibleRepos reposSeven).length [0]).queued ≠ [] ∧
    (runSchedule (eligibleRepos reposSeven).length [0]).running.length = concurrencyLimit :=
  ⟨by decide, (aggregator_concurrency_bound reposSeven [0]).2 (by decide)⟩

end GitHubStars
